import Mathlib

/-!
Verification of the panchang scraper (`src/api/app.py`, the variant whose
extraction logic the design spec describes in detail; `src/app.py` is an
earlier duplicate of the same program).

Modelling conventions:
* A parsed HTML document (the BeautifulSoup tree) is a forest of `Node`s:
  element nodes carry a tag, a class list and children; text nodes carry a
  string.  `NodeList` is a mutually defined list of nodes (so that all
  traversals are structurally recursive and evaluate by `rfl`).
  `soup.find` / `find_all` traverse in document (pre)order.
* Calendar dates are modelled by their proleptic-Gregorian ordinal
  (`date.toordinal` in Python); `timedelta(days=1)` is `+ 1` and date
  comparison is `Nat` comparison, which is exact since a Python `date` is
  order-isomorphic to its ordinal.  `strftime` renderings of a date are
  modelled by `toString` of the ordinal (an injective stand-in).
* The network fetch (`requests.get` + `raise_for_status` + HTML parsing) is
  an explicit parameter `Fetch : String → Option Doc`, keyed by the request
  URL; `none` models a transport failure / non-2xx status (the
  `RequestException` path of `scrape_panchang_for_day`).
* The `try/except` guarding a single key's extraction inside
  `get_value_from_table` is modelled by an `Except`-valued body: a raised
  exception is an `.error`, which the handler converts to the `"Not Found"`
  sentinel.  The concrete body `fieldBody` is the pure translation of the
  loop inside `get_value_from_table` (which by itself never raises).
-/

namespace Panchang

mutual

/-- A node of the parsed HTML tree. -/
inductive Node : Type where
  | elem (tag : String) (classes : List String) (children : NodeList)
  | text (s : String)

/-- A list of sibling nodes (mutually defined with `Node` so that tree
traversals are structurally recursive). -/
inductive NodeList : Type where
  | nil
  | cons (hd : Node) (tl : NodeList)

end

/-- A parsed document: the forest of top-level nodes. -/
abbrev Doc := NodeList

/-- Build a `NodeList` from a `List Node` (notation helper for examples). -/
def NodeList.ofList : List Node → NodeList
  | [] => .nil
  | n :: rest => .cons n (NodeList.ofList rest)

def Node.children : Node → NodeList
  | .elem _ _ cs => cs
  | .text _ => .nil

/-- Does the node have the given tag and CSS class (`find('tag', class_=cls)`)? -/
def Node.hasClass (n : Node) (tag cls : String) : Bool :=
  match n with
  | .elem t classes _ => t == tag && classes.contains cls
  | .text _ => false

def isDiv : Node → Bool
  | .elem t _ _ => t == "div"
  | .text _ => false

/-- The canonical panchang-card container `div.dpPanchangCard`. -/
def isCard (n : Node) : Bool := n.hasClass "div" "dpPanchangCard"

/-- A label-shaped element `div.dpTableKey`. -/
def isKey (n : Node) : Bool := n.hasClass "div" "dpTableKey"

/-- A value element `div.dpTableValue`. -/
def isValue (n : Node) : Bool := n.hasClass "div" "dpTableValue"

/-- BeautifulSoup `Tag.string`: the node's string if it has a single-child
chain ending in a text node, else `none`. -/
def Node.nodeString : Node → Option String
  | .text s => some s
  | .elem _ _ (.cons c .nil) => Node.nodeString c
  | .elem _ _ _ => none

/-- The predicate of `soup.find('div', class_='dpTableKey', string='Sunrise')`:
a label element whose string equals `"Sunrise"` exactly (case-sensitive). -/
def isSunriseKey (n : Node) : Bool :=
  isKey n && n.nodeString == some "Sunrise"

/-! Python string primitives, re-implemented over character lists so that
they evaluate inside the kernel. -/

/-- The whitespace characters `str.strip()` removes (ASCII range). -/
def isPySpace (c : Char) : Bool :=
  c == ' ' || c == '\t' || c == '\n' || c == '\r' || c == '\x0b' || c == '\x0c'

/-- Python `str.strip()`. -/
def pyStrip (s : String) : String :=
  ⟨((s.toList.dropWhile isPySpace).reverse.dropWhile isPySpace).reverse⟩

/-- Python `str.lower()` (ASCII case mapping; the six key names and the
class names involved are ASCII). -/
def pyLower (s : String) : String :=
  ⟨s.toList.map Char.toLower⟩

/-- Python `' '.join(...)`. -/
def joinSpace : List String → String
  | [] => ""
  | [s] => s
  | s :: rest => s ++ " " ++ joinSpace rest

/-- Python `s.split('-')`. -/
def splitOnChar (sep : Char) : List Char → List (List Char)
  | [] => [[]]
  | c :: rest =>
      match splitOnChar sep rest, c == sep with
      | r, true => [] :: r
      | [], false => [[c]]
      | g :: gs, false => (c :: g) :: gs

def splitDash (s : String) : List String :=
  (splitOnChar (Char.ofNat 45) s.toList).map (fun cs => ⟨cs⟩)

mutual

/-- Matching nodes below (and including) a node, in document (pre)order. -/
def findAllNode (p : Node → Bool) : Node → List Node
  | .text s => if p (.text s) then [Node.text s] else []
  | .elem t c cs =>
      (if p (.elem t c cs) then [Node.elem t c cs] else []) ++ findAllList p cs

/-- Matching nodes of a forest in document (pre)order (`find_all`). -/
def findAllList (p : Node → Bool) : NodeList → List Node
  | .nil => []
  | .cons n rest => findAllNode p n ++ findAllList p rest

end

/-- First matching node in document order (`soup.find`). -/
def findFirst (p : Node → Bool) (doc : NodeList) : Option Node :=
  (findAllList p doc).head?

mutual

/-- Matching nodes below (and including) a node, each paired with its list
of following siblings; `sibs` are the following siblings of the node
itself. -/
def keyRowsNode (p : Node → Bool) (sibs : NodeList) : Node → List (Node × NodeList)
  | .text s => if p (.text s) then [(Node.text s, sibs)] else []
  | .elem t c cs =>
      (if p (.elem t c cs) then [(Node.elem t c cs, sibs)] else [])
        ++ keyRowsList p cs

/-- Matching nodes of a forest in document order, each paired with its
following siblings (the context searched by `find_next_sibling`). -/
def keyRowsList (p : Node → Bool) : NodeList → List (Node × NodeList)
  | .nil => []
  | .cons n rest => keyRowsNode p rest n ++ keyRowsList p rest

end

mutual

/-- First matching node inside a node (the node itself included), with its
ancestor chain; `anc` lists the already-known ancestors, nearest first. -/
def findAncNode (p : Node → Bool) (anc : List Node) : Node → Option (Node × List Node)
  | .text s => if p (.text s) then some (Node.text s, anc) else none
  | .elem t c cs =>
      if p (.elem t c cs) then some (Node.elem t c cs, anc)
      else findAncList p (Node.elem t c cs :: anc) cs

/-- First matching node of a forest in document order together with its
ancestor chain, nearest ancestor first. -/
def findAncList (p : Node → Bool) (anc : List Node) : NodeList → Option (Node × List Node)
  | .nil => none
  | .cons n rest =>
      match findAncNode p anc n with
      | some r => some r
      | none => findAncList p anc rest

end

mutual

/-- The stripped text fragments below a node (`stripped_strings`): each text
node trimmed, empty results skipped. -/
def strippedNode : Node → List String
  | .text s => if pyStrip s == "" then [] else [pyStrip s]
  | .elem _ _ cs => strippedList cs

/-- The stripped text fragments of a forest, in document order. -/
def strippedList : NodeList → List String
  | .nil => []
  | .cons n rest => strippedNode n ++ strippedList rest

end

/-- The joined stripped text, `' '.join(node.stripped_strings).strip()`. -/
def Node.strippedText (n : Node) : String :=
  pyStrip (joinSpace (strippedList n.children))

/-- Normalized label text used for key matching: stripped text, lower-cased. -/
def Node.normText (n : Node) : String :=
  pyLower n.strippedText

/-- Python's `needle in hay` substring test. -/
def containsSubstr (hay needle : String) : Bool :=
  hay.toList.tails.any (fun t => needle.toList.isPrefixOf t)

/-! ### Field extractor (`scrape_panchang_for_day`, `src/api/app.py` 44-129) -/

/-- Number of `div.dpTableKey` descendants of a node
(`len(current_parent.find_all('div', class_='dpTableKey'))`, line 61). -/
def countKeys (n : Node) : Nat :=
  (findAllList isKey n.children).length

/-- The upward walk of the secondary fallback (lines 59-65): starting from
the nearest `div` ancestor and stepping to the next enclosing `div`
(`find_parent('div')`), accept the first one containing at least 5
`div.dpTableKey` descendants.  `anc` is the raw ancestor chain of the
`Sunrise` label, nearest first. -/
def ancestorWalk : List Node → Option Node
  | [] => none
  | n :: rest =>
      if isDiv n then
        if 5 ≤ countKeys n then some n else ancestorWalk rest
      else ancestorWalk rest

/-- The nearest `div` ancestor (`sunrise_key_element.find_parent('div')`),
given the raw ancestor chain (nearest first). -/
def findParentDiv : List Node → Option Node
  | [] => none
  | n :: rest => if isDiv n then some n else findParentDiv rest

/-- Anchor resolution as the code performs it (lines 46-78): the primary
`div.dpPanchangCard` if found; else locate the `Sunrise` label and run the
ancestor walk; else the label's nearest enclosing `div` as a last resort;
`none` when no `Sunrise` label exists (line 74) or the last resort finds no
enclosing `div` (line 76-78). -/
def resolveAnchor (doc : Doc) : Option Node :=
  match findFirst isCard doc with
  | some card => some card
  | none =>
      match findAncList isSunriseKey [] doc with
      | none => none
      | some (_, anc) =>
          match ancestorWalk anc with
          | some card => some card
          | none => findParentDiv anc

/-- The six target panchang fields. -/
inductive Key : Type where
  | sunrise | sunset | tithi | nakshatra | yoga | karana
deriving Repr, DecidableEq

/-- The key name passed to `get_value_from_table` (lines 108-113). -/
def Key.name : Key → String
  | .sunrise => "Sunrise"
  | .sunset => "Sunset"
  | .tithi => "Tithi"
  | .nakshatra => "Nakshatra"
  | .yoga => "Yoga"
  | .karana => "Karana"

/-- The `"Not Found"` sentinel. -/
def notFound : String := "Not Found"

/-- Label-vs-key match (line 93):
`key_name.lower() in ' '.join(key_element.stripped_strings).strip().lower()`. -/
def keyMatches (key : String) (n : Node) : Bool :=
  containsSubstr n.normText (pyLower key)

/-- The search `key_element.find_next_sibling('div', class_='dpTableValue')` (line 95)
over the following siblings of a matched label. -/
def nextValueSib : NodeList → Option Node
  | .nil => none
  | .cons n rest => if isValue n then some n else nextValueSib rest

/-- The loop of `get_value_from_table` (lines 88-102) over the label
elements paired with their following siblings: the first matching label
wins; its value is the text of the next `dpTableValue` sibling, or the
sentinel when that sibling is missing; the sentinel when no label
matches. -/
def lookupKey (key : String) : List (Node × NodeList) → String
  | [] => notFound
  | (e, sibs) :: rest =>
      if keyMatches key e then
        match nextValueSib sibs with
        | some v => v.strippedText
        | none => notFound
      else lookupKey key rest

/-- The pure body of `get_value_from_table key_name` for a resolved card. -/
def getValueCore (card : Node) (key : String) : String :=
  lookupKey key (keyRowsList isKey card.children)

/-- The `try/except` inside `get_value_from_table` (lines 86, 103-105): an
exception raised by the body is converted to the sentinel. -/
def tryField (body : Except String String) : String :=
  match body with
  | .ok v => v
  | .error _ => notFound

/-- The concrete (pure, non-raising) extraction body for one key. -/
def fieldBody (card : Node) (k : Key) : Except String String :=
  .ok (getValueCore card k.name)

/-- The guarded `get_value_from_table` (lines 85-105). -/
def get_value_from_table (card : Node) (k : Key) : String :=
  tryField (fieldBody card k)

/-- The six extracted field values of one day's record. -/
structure PanchangData where
  sunrise : String
  sunset : String
  tithi : String
  nakshatra : String
  yoga : String
  karana : String
deriving Repr, DecidableEq

def PanchangData.field (p : PanchangData) : Key → String
  | .sunrise => p.sunrise
  | .sunset => p.sunset
  | .tithi => p.tithi
  | .nakshatra => p.nakshatra
  | .yoga => p.yoga
  | .karana => p.karana

/-- Lines 108-113: all six keys extracted independently and unconditionally,
each guarded by the per-key `try/except` (`body` is the possibly-raising
per-key extraction body). -/
def extractFields (body : Key → Except String String) : PanchangData where
  sunrise := tryField (body .sunrise)
  sunset := tryField (body .sunset)
  tithi := tryField (body .tithi)
  nakshatra := tryField (body .nakshatra)
  yoga := tryField (body .yoga)
  karana := tryField (body .karana)

/-! ### Day scrape and range loop -/

/-- A calendar date, as its Python `date.toordinal()` value. -/
abbrev Date := Nat

/-- A fetched-and-parsed document per request URL; `none` models a transport
failure / non-2xx status. -/
abbrev Fetch := String → Option Doc

/-- The fixed geoname id for New Delhi (line 28). -/
def geonameId : String := "1261481"

/-- The lookup URL (line 30): built from the fixed geoname id and the date;
`location_str` is accepted by `scrape_panchang_for_day` but never used. -/
def buildUrl (d : Date) (location_str : String) : String :=
  "https://www.drikpanchang.com/panchang/day-panchang.html?geoname-id="
    ++ geonameId ++ "&date=" ++ toString d

/-- One day's successful scrape result: the date stamp plus six fields. -/
structure DayRecord where
  date : Date
  fields : PanchangData
deriving Repr, DecidableEq

/-- The scraper `scrape_panchang_for_day` (lines 12-129), generic in the per-key
extraction body `inj` (see `tryField`); returns `none` on fetch failure or
failed anchor resolution. -/
def scrapeDayGen (inj : Node → Key → Except String String) (fetch : Fetch)
    (d : Date) (location_str : String) : Option DayRecord :=
  match fetch (buildUrl d location_str) with
  | none => none
  | some doc =>
      match resolveAnchor doc with
      | none => none
      | some card => some ⟨d, extractFields (inj card)⟩

/-- The concrete `scrape_panchang_for_day` with its pure per-key bodies. -/
def scrape_panchang_for_day (fetch : Fetch) (d : Date) (loc : String) : Option DayRecord :=
  scrapeDayGen fieldBody fetch d loc

/-- One entry of the `/panchang` output list: a day's record, or the error
placeholder appended when the day's scrape returned `None`. -/
inductive DayEntry : Type where
  | data (date : Date) (fields : PanchangData)
  | err (date : Date) (msg : String)
deriving Repr, DecidableEq

def DayEntry.date : DayEntry → Date
  | .data d _ => d
  | .err d _ => d

/-- The per-day error placeholder message (lines 166-169). -/
def dayErrorMsg : String :=
  "Failed to retrieve complete data for this day. Check backend logs for details."

/-- One iteration of the `/panchang` loop body (lines 157-169). -/
def dayEntryFor (fetch : Fetch) (loc : String) (d : Date) : DayEntry :=
  match scrape_panchang_for_day fetch d loc with
  | some r => .data r.date r.fields
  | none => .err d dayErrorMsg

/-- The date loop of `get_panchang` (lines 153-172) with its iteration count
made explicit: `while current_date <= end_date` runs exactly `e + 1 - s`
times, advancing the date by one day per iteration. -/
def scrapeRangeAux (fetch : Fetch) (loc : String) : Nat → Date → List DayEntry
  | 0, _ => []
  | n + 1, cur => dayEntryFor fetch loc cur :: scrapeRangeAux fetch loc n (cur + 1)

/-- The `/panchang` date loop from `start_date` to `end_date` inclusive. -/
def scrapeRange (fetch : Fetch) (loc : String) (s e : Date) : List DayEntry :=
  scrapeRangeAux fetch loc (e + 1 - s) s

/-! ### Request handler (`get_panchang`, lines 132-175) -/

/-- The three query parameters, as `request.args.get` returns them
(`none` when absent). -/
structure Args where
  start_date : Option String
  end_date : Option String
  location : Option String

/-- The handler's response: a 400 error JSON, or the 200 `panchang` list. -/
inductive Response : Type where
  | clientError (msg : String)
  | ok (panchang : List DayEntry)
deriving Repr, DecidableEq

/-- Python truthiness of a `request.args.get` result: `None` and the empty
string are falsy (the `all([...])` check on line 142). -/
def truthy : Option String → Bool
  | none => false
  | some s => !(s == "")

def isLeapYear (y : Nat) : Bool :=
  (y % 4 == 0 && y % 100 != 0) || y % 400 == 0

def daysInMonth (y m : Nat) : Nat :=
  if m == 2 then (if isLeapYear y then 29 else 28)
  else if m == 4 || m == 6 || m == 9 || m == 11 then 30
  else 31

def allDigits (s : String) : Bool := s.toList.all Char.isDigit

def digitsVal (s : String) : Nat :=
  s.toList.foldl (fun a c => a * 10 + (c.toNat - 48)) 0

/-- Model of `datetime.strptime(s, '%Y-%m-%d').date()` (lines 147-148): exactly four
year digits, one or two month and day digits, the whole string consumed,
and a valid calendar date (year at least 1); `none` is the `ValueError`
path. -/
def parseYMD (s : String) : Option (Nat × Nat × Nat) :=
  match splitDash s with
  | [ys, ms, ds] =>
      if allDigits ys && ys.length == 4
          && allDigits ms && 1 ≤ ms.length && ms.length ≤ 2
          && allDigits ds && 1 ≤ ds.length && ds.length ≤ 2 then
        let y := digitsVal ys
        let m := digitsVal ms
        let d := digitsVal ds
        if 1 ≤ y && 1 ≤ m && m ≤ 12 && 1 ≤ d && d ≤ daysInMonth y m then
          some (y, m, d)
        else none
      else none
  | _ => none

def daysBeforeMonth (y m : Nat) : Nat :=
  (List.range (m - 1)).foldl (fun a i => a + daysInMonth y (i + 1)) 0

/-- Python `date.toordinal()` for a year-month-day triple. -/
def toOrdinal : Nat × Nat × Nat → Nat
  | (y, m, d) =>
      365 * (y - 1) + (y - 1) / 4 - (y - 1) / 100 + (y - 1) / 400
        + daysBeforeMonth y m + d

def missingParamsMsg : String :=
  "Missing required parameters (start_date, end_date, location)."

/-- The invalid-date message, with the source's typo kept verbatim
(line 151). -/
def invalidDateMsg : String := "Invalid date format. Use THAT-MM-DD."

/-- The `/panchang` request handler `get_panchang` (lines 132-175). -/
def get_panchang (fetch : Fetch) (args : Args) : Response :=
  if !(truthy args.start_date && truthy args.end_date && truthy args.location) then
    .clientError missingParamsMsg
  else
    match parseYMD (args.start_date.getD ""), parseYMD (args.end_date.getD "") with
    | some sd, some ed =>
        .ok (scrapeRange fetch (args.location.getD "") (toOrdinal sd) (toOrdinal ed))
    | _, _ => .clientError invalidDateMsg

/-! ### Helper lemmas -/

theorem scrapeDayGen_date (inj : Node → Key → Except String String) (fetch : Fetch)
    (d : Date) (loc : String) (r : DayRecord)
    (h : scrapeDayGen inj fetch d loc = some r) : r.date = d := by
  unfold scrapeDayGen at h
  split at h
  · cases h
  · split at h
    · cases h
    · cases h; rfl

theorem dayEntryFor_date (fetch : Fetch) (loc : String) (d : Date) :
    (dayEntryFor fetch loc d).date = d := by
  unfold dayEntryFor
  cases h : scrape_panchang_for_day fetch d loc with
  | none => rfl
  | some r => exact scrapeDayGen_date fieldBody fetch d loc r h

theorem scrapeRangeAux_eq_map (fetch : Fetch) (loc : String) :
    ∀ (n : Nat) (cur : Date),
      scrapeRangeAux fetch loc n cur = (List.range' cur n).map (dayEntryFor fetch loc)
  | 0, _ => rfl
  | n + 1, cur => by
      simp only [scrapeRangeAux, List.range'_succ, List.map_cons,
        scrapeRangeAux_eq_map fetch loc n (cur + 1)]

/-! ### C1: the date loop covers the inclusive range, in order -/

/-- C1: for `startDate ≤ endDate` the `/panchang` loop returns one entry per
calendar day of `[startDate, endDate]` — the entry dates are exactly
`List.range' startDate (endDate + 1 - startDate)`, strictly ascending, no
gaps, no duplicates — and its length is the inclusive day count; for
`startDate > endDate` it returns the empty sequence. -/
theorem scrapeRange_inclusive_ascending (fetch : Fetch) (loc : String) (s e : Date) :
    (s ≤ e →
      (scrapeRange fetch loc s e).length = e + 1 - s ∧
      (scrapeRange fetch loc s e).map DayEntry.date = List.range' s (e + 1 - s) ∧
      ((scrapeRange fetch loc s e).map DayEntry.date).Pairwise (· < ·)) ∧
    (e < s → scrapeRange fetch loc s e = []) := by
  have hmap : (scrapeRange fetch loc s e).map DayEntry.date = List.range' s (e + 1 - s) := by
    rw [scrapeRange, scrapeRangeAux_eq_map, List.map_map]
    have : ∀ a ∈ List.range' s (e + 1 - s),
        (DayEntry.date ∘ dayEntryFor fetch loc) a = id a :=
      fun a _ => dayEntryFor_date fetch loc a
    rw [List.map_congr_left this, List.map_id]
  constructor
  · intro _
    refine ⟨?_, hmap, ?_⟩
    · have := congrArg List.length hmap
      rwa [List.length_map, List.length_range'] at this
    · rw [hmap]; exact List.pairwise_lt_range' s (e + 1 - s)
  · intro hlt
    have h0 : e + 1 - s = 0 := Nat.sub_eq_zero_of_le hlt
    rw [scrapeRange, h0]
    rfl

/-- Witness for C1 at a concrete range and a concrete (failing) fetch. -/
theorem scrapeRange_inclusive_ascending_witness :
    (scrapeRange (fun _ => none) "New Delhi, India" 10 12).length = 12 + 1 - 10 ∧
    scrapeRange (fun _ => none) "New Delhi, India" 12 10 = [] :=
  ⟨((scrapeRange_inclusive_ascending (fun _ => none) "New Delhi, India" 10 12).1
      (by decide)).1,
   (scrapeRange_inclusive_ascending (fun _ => none) "New Delhi, India" 12 10).2
      (by decide)⟩

/-! ### C8: the location string never influences the result -/

theorem scrapeRangeAux_loc_irrel (fetch : Fetch) (loc1 loc2 : String) :
    ∀ (n : Nat) (cur : Date),
      scrapeRangeAux fetch loc1 n cur = scrapeRangeAux fetch loc2 n cur
  | 0, _ => rfl
  | n + 1, cur => by
      simp only [scrapeRangeAux, scrapeRangeAux_loc_irrel fetch loc1 loc2 n (cur + 1)]
      rfl

/-- C8: the location parameter does not influence the result — for a fixed
fetch behaviour and date(s), runs differing only in the location string
build the same lookup URL, the same per-day result and the same output
sequence. -/
theorem location_inert (fetch : Fetch) (loc1 loc2 : String) (d s e : Date) :
    buildUrl d loc1 = buildUrl d loc2 ∧
    scrape_panchang_for_day fetch d loc1 = scrape_panchang_for_day fetch d loc2 ∧
    scrapeRange fetch loc1 s e = scrapeRange fetch loc2 s e :=
  ⟨rfl, rfl, scrapeRangeAux_loc_irrel fetch loc1 loc2 (e + 1 - s) s⟩

/-! ### C2: the three-tier anchor fallback -/

/-- Anchor resolution as the spec words it: the canonical card if present;
otherwise, from the "Sunrise" label's ancestor containers (`div`s, nearest
first), the first one holding at least 5 label-shaped elements; otherwise
the label's immediate parent container; failure when no "Sunrise" label
exists. -/
def resolveAnchorSpec (doc : Doc) : Option Node :=
  match findFirst isCard doc with
  | some card => some card
  | none =>
      match findAncList isSunriseKey [] doc with
      | none => none
      | some (_, anc) =>
          match (anc.filter isDiv).find? (fun a => decide (5 ≤ countKeys a)) with
          | some a => some a
          | none => (anc.filter isDiv).head?

theorem ancestorWalk_eq_filter_find (anc : List Node) :
    ancestorWalk anc = (anc.filter isDiv).find? (fun a => decide (5 ≤ countKeys a)) := by
  induction anc with
  | nil => rfl
  | cons n rest ih =>
      cases hd : isDiv n
      · rw [List.filter_cons_of_neg (by simp [hd])]
        simp only [ancestorWalk, hd]
        exact ih
      · rw [List.filter_cons_of_pos hd]
        simp only [ancestorWalk, hd, if_true]
        by_cases hc : 5 ≤ countKeys n
        · rw [if_pos hc]
          exact (List.find?_cons_of_pos _ (by simp [hc])).symm
        · rw [if_neg hc, List.find?_cons_of_neg _ (by simp [hc])]
          exact ih

theorem findParentDiv_eq_head (anc : List Node) :
    findParentDiv anc = (anc.filter isDiv).head? := by
  induction anc with
  | nil => rfl
  | cons n rest ih =>
      cases hd : isDiv n
      · rw [List.filter_cons_of_neg (by simp [hd])]
        simp only [findParentDiv, hd]
        exact ih
      · rw [List.filter_cons_of_pos hd]
        simp only [findParentDiv, hd, if_true]
        rfl

/-- C2: anchor resolution is the three-tier fallback in which the first
success wins — (1) the canonical panchang-card container if present;
(2) otherwise, given a label whose string equals "Sunrise" (case-sensitive),
the first ancestor container, walking upward one level at a time, holding at
least 5 label-shaped elements; (3) otherwise the label's immediate parent
container; and with no "Sunrise" label at all, resolution fails and the day
is reported as total failure.  ("Container" is realized as a `div` element,
as in the source.) -/
theorem resolveAnchor_three_tier (doc : Doc) :
    resolveAnchor doc = resolveAnchorSpec doc := by
  unfold resolveAnchor resolveAnchorSpec
  cases findFirst isCard doc
  · cases h : findAncList isSunriseKey [] doc with
    | none => rfl
    | some r =>
        obtain ⟨n, anc⟩ := r
        simp only [ancestorWalk_eq_filter_find, findParentDiv_eq_head]
  · rfl

/-! ### C7: the 5-row threshold binds only the secondary tier -/

/-- A `dpTableKey`/`dpTableValue` sibling pair. -/
def kvRow (k v : String) : List Node :=
  [Node.elem "div" ["dpTableKey"] (.cons (.text k) .nil),
   Node.elem "div" ["dpTableValue"] (.cons (.text v) .nil)]

/-- All six key/value rows, well formed. -/
def sixRows : List Node :=
  kvRow "Sunrise" "06:12 AM" ++ kvRow "Sunset" "06:40 PM" ++ kvRow "Tithi" "Dwitiya"
    ++ kvRow "Nakshatra" "Ashwini" ++ kvRow "Yoga" "Vishkambha" ++ kvRow "Karana" "Balava"

/-- A document with no primary card whose Sunrise label has only one small
enclosing `div`: only the tertiary last resort can fire. -/
def docLastResort : Doc :=
  NodeList.ofList
    [Node.elem "div" ["dpSmall"] (NodeList.ofList (kvRow "Sunrise" "06:12 AM"))]

/-- A document with no primary card whose Sunrise label sits inside a
wrapper `div` holding all six rows: the secondary tier fires. -/
def docFallback : Doc :=
  NodeList.ofList
    [Node.elem "div" ["dpOuter"] (NodeList.ofList
      [Node.elem "div" ["dpWrap"] (NodeList.ofList sixRows)])]

/-- C7 counterexample: on `docLastResort` the tertiary tier accepts an
anchor containing a single label-shaped row — fewer than the 5-row
threshold — so "an anchor judged to contain fewer than 5 label-shaped rows
is never accepted" is false of the code. -/
theorem anchor_accepted_below_threshold :
    resolveAnchor docLastResort =
      some (Node.elem "div" ["dpSmall"] (NodeList.ofList (kvRow "Sunrise" "06:12 AM"))) ∧
    countKeys (Node.elem "div" ["dpSmall"] (NodeList.ofList (kvRow "Sunrise" "06:12 AM"))) < 5 :=
  ⟨rfl, by decide⟩

theorem ancestorWalk_countKeys (anc : List Node) (a : Node)
    (h : ancestorWalk anc = some a) : 5 ≤ countKeys a := by
  induction anc with
  | nil => cases h
  | cons n rest ih =>
      simp only [ancestorWalk] at h
      split_ifs at h with h1 h2
      · cases h; exact h2
      · exact ih h
      · exact ih h

/-- C7 amended: the 5-row minimum is guaranteed exactly for anchors accepted
by the secondary tier (the ancestor walk); the primary card and the tertiary
last resort are accepted without any row-count check (see the
counterexample). -/
theorem secondary_anchor_meets_threshold (doc : Doc) (n a : Node) (anc : List Node)
    (hcard : findFirst isCard doc = none)
    (hsun : findAncList isSunriseKey [] doc = some (n, anc))
    (hwalk : ancestorWalk anc = some a) :
    resolveAnchor doc = some a ∧ 5 ≤ countKeys a := by
  refine ⟨?_, ancestorWalk_countKeys anc a hwalk⟩
  unfold resolveAnchor
  simp only [hcard, hsun, hwalk]

/-- Witness for the amended C7 theorem on `docFallback`. -/
theorem secondary_anchor_meets_threshold_witness :
    resolveAnchor docFallback = some (Node.elem "div" ["dpWrap"] (NodeList.ofList sixRows)) ∧
    5 ≤ countKeys (Node.elem "div" ["dpWrap"] (NodeList.ofList sixRows)) :=
  secondary_anchor_meets_threshold docFallback
    (Node.elem "div" ["dpTableKey"] (.cons (.text "Sunrise") .nil))
    (Node.elem "div" ["dpWrap"] (NodeList.ofList sixRows))
    [Node.elem "div" ["dpWrap"] (NodeList.ofList sixRows),
     Node.elem "div" ["dpOuter"] (NodeList.ofList
       [Node.elem "div" ["dpWrap"] (NodeList.ofList sixRows)])]
    rfl rfl rfl

/-! ### C4: fuzzy key matching, first match wins -/

theorem lookupKey_eq_find (key : String) (l : List (Node × NodeList)) :
    lookupKey key l =
      (match l.find? (fun r => keyMatches key r.1) with
       | some (_, sibs) =>
           (match nextValueSib sibs with
            | some v => v.strippedText
            | none => notFound)
       | none => notFound) := by
  induction l with
  | nil => rfl
  | cons r rest ih =>
      obtain ⟨e, sibs⟩ := r
      cases hm : keyMatches key e
      · rw [List.find?_cons_of_neg _ (by simp [hm])]
        simp only [lookupKey, hm, Bool.false_eq_true, if_false]
        exact ih
      · rw [List.find?_cons_of_pos _ (by simp [hm])]
        simp only [lookupKey, hm, if_true]

/-- C4: per-field key matching is case-insensitive substring containment
over normalized label text — a label matches a target key exactly when the
lower-cased key name occurs as a substring of the label's nested text
fragments joined, whitespace-trimmed and lower-cased — and among matching
labels the first in document order determines the field's value. -/
theorem key_matching_substring_first (card : Node) (k : Key) :
    (∀ n : Node,
      keyMatches (Key.name k) n =
        containsSubstr (pyLower (pyStrip (joinSpace (strippedList n.children))))
          (pyLower (Key.name k))) ∧
    get_value_from_table card k =
      (match (keyRowsList isKey card.children).find? (fun r => keyMatches (Key.name k) r.1) with
       | some (_, sibs) =>
           (match nextValueSib sibs with
            | some v => v.strippedText
            | none => notFound)
       | none => notFound) :=
  ⟨fun _ => rfl, lookupKey_eq_find (Key.name k) (keyRowsList isKey card.children)⟩

/-! ### C3, C5, C6: error containment in the extractor -/

/-- C3: total day-level failure happens only on anchor-resolution failure.
With a fetched document whose anchor resolves (by any tier), the day always
yields a record carrying the date plus all six per-key values (each a real
value or the sentinel, with no condition on their contents); with no
anchor, the day fails. -/
theorem record_iff_anchor (fetch : Fetch) (d : Date) (loc : String) (doc : Doc)
    (hf : fetch (buildUrl d loc) = some doc) :
    (∀ card, resolveAnchor doc = some card →
        scrape_panchang_for_day fetch d loc = some ⟨d, extractFields (fieldBody card)⟩ ∧
        ∀ k : Key, (extractFields (fieldBody card)).field k = get_value_from_table card k) ∧
    (resolveAnchor doc = none → scrape_panchang_for_day fetch d loc = none) := by
  constructor
  · intro card hc
    constructor
    · unfold scrape_panchang_for_day scrapeDayGen
      simp only [hf, hc]
    · intro k; cases k <;> rfl
  · intro hc
    unfold scrape_panchang_for_day scrapeDayGen
    simp only [hf, hc]

/-- The canonical card holding all six well-formed rows. -/
def cardFull : Node := Node.elem "div" ["dpPanchangCard"] (NodeList.ofList sixRows)

def docCard : Doc := NodeList.ofList [cardFull]

/-- Witness for C3 on a concrete document with the primary card. -/
theorem record_iff_anchor_witness :
    scrape_panchang_for_day (fun _ => some docCard) 738000 "Mumbai" =
      some ⟨738000, extractFields (fieldBody cardFull)⟩ :=
  ((record_iff_anchor (fun _ => some docCard) 738000 "Mumbai" docCard rfl).1
    cardFull rfl).1

/-- C5: when a key's first matching label has no adjacent value element, the
field is recorded as the sentinel, the day still yields a record, and every
field (in particular every other, correctly-structured one) still equals its
own independent per-key extraction. -/
theorem missing_value_sentinel (fetch : Fetch) (d : Date) (loc : String) (doc : Doc)
    (card e : Node) (sibs : NodeList) (k : Key)
    (hf : fetch (buildUrl d loc) = some doc)
    (ha : resolveAnchor doc = some card)
    (hm : (keyRowsList isKey card.children).find? (fun r => keyMatches (Key.name k) r.1)
            = some (e, sibs))
    (hv : nextValueSib sibs = none) :
    scrape_panchang_for_day fetch d loc = some ⟨d, extractFields (fieldBody card)⟩ ∧
    (extractFields (fieldBody card)).field k = notFound ∧
    ∀ k2 : Key, (extractFields (fieldBody card)).field k2 = get_value_from_table card k2 := by
  refine ⟨?_, ?_, ?_⟩
  · unfold scrape_panchang_for_day scrapeDayGen
    simp only [hf, ha]
  · have h2 : lookupKey (Key.name k) (keyRowsList isKey card.children) = notFound := by
      simp only [lookupKey_eq_find, hm, hv]
    cases k <;> exact h2
  · intro k2; cases k2 <;> rfl

/-- A key/value row wrapped in its own row container. -/
def wrapRow (k v : String) : Node :=
  Node.elem "div" ["dpRowWrap"] (NodeList.ofList (kvRow k v))

/-- A primary card whose Tithi row has a label but no adjacent value
element; all other rows are well formed. -/
def cardTithiMissing : Node :=
  Node.elem "div" ["dpPanchangCard"] (NodeList.ofList
    [wrapRow "Sunrise" "06:12 AM", wrapRow "Sunset" "06:40 PM",
     Node.elem "div" ["dpRowWrap"]
       (.cons (Node.elem "div" ["dpTableKey"] (.cons (.text "Tithi") .nil)) .nil),
     wrapRow "Nakshatra" "Ashwini", wrapRow "Yoga" "Vishkambha",
     wrapRow "Karana" "Balava"])

def docTithiMissing : Doc := NodeList.ofList [cardTithiMissing]

/-- Witness for C5 on the document whose Tithi label has no value sibling. -/
theorem missing_value_sentinel_witness :
    scrape_panchang_for_day (fun _ => some docTithiMissing) 739000 "New Delhi, India" =
      some ⟨739000, extractFields (fieldBody cardTithiMissing)⟩ ∧
    (extractFields (fieldBody cardTithiMissing)).field Key.tithi = notFound :=
  ⟨(missing_value_sentinel (fun _ => some docTithiMissing) 739000 "New Delhi, India"
      docTithiMissing cardTithiMissing
      (Node.elem "div" ["dpTableKey"] (.cons (.text "Tithi") .nil)) .nil Key.tithi
      rfl rfl rfl rfl).1,
   (missing_value_sentinel (fun _ => some docTithiMissing) 739000 "New Delhi, India"
      docTithiMissing cardTithiMissing
      (Node.elem "div" ["dpTableKey"] (.cons (.text "Tithi") .nil)) .nil Key.tithi
      rfl rfl rfl rfl).2.1⟩

/-- C6: an exception raised while extracting one key is absorbed locally as
the sentinel for that key only — every other key keeps the value of its own
guarded extraction and the day still produces a record, never a failure. -/
theorem exception_absorbed_locally (inj : Node → Key → Except String String)
    (fetch : Fetch) (d : Date) (loc : String) (doc : Doc) (card : Node)
    (k : Key) (msg : String)
    (hf : fetch (buildUrl d loc) = some doc)
    (ha : resolveAnchor doc = some card)
    (he : inj card k = .error msg) :
    scrapeDayGen inj fetch d loc = some ⟨d, extractFields (inj card)⟩ ∧
    (extractFields (inj card)).field k = notFound ∧
    ∀ k2 : Key, k2 ≠ k → (extractFields (inj card)).field k2 = tryField (inj card k2) := by
  refine ⟨?_, ?_, ?_⟩
  · unfold scrapeDayGen
    simp only [hf, ha]
  · have h2 : tryField (inj card k) = notFound := by rw [he]; rfl
    cases k <;> exact h2
  · intro k2 _; cases k2 <;> rfl

/-- An extraction body that models a raised exception on every key. -/
def raiseAll : Node → Key → Except String String :=
  fun _ _ => .error "AttributeError"

/-- Witness for C6 with a raising body on a concrete document. -/
theorem exception_absorbed_locally_witness :
    scrapeDayGen raiseAll (fun _ => some docCard) 738000 "Pune" =
      some ⟨738000, extractFields (raiseAll cardFull)⟩ ∧
    (extractFields (raiseAll cardFull)).field Key.yoga = notFound :=
  ⟨(exception_absorbed_locally raiseAll (fun _ => some docCard) 738000 "Pune"
      docCard cardFull Key.yoga "AttributeError" rfl rfl rfl).1,
   (exception_absorbed_locally raiseAll (fun _ => some docCard) 738000 "Pune"
      docCard cardFull Key.yoga "AttributeError" rfl rfl rfl).2.1⟩

/-! ### C9, C10: request-boundary validation -/

/-- Is the response a client error (HTTP 400 with an error message)? -/
def Response.isClientError : Response → Bool
  | .clientError _ => true
  | .ok _ => false

/-- C9: a request missing any of the three required parameters, or whose
start or end date fails to parse as YYYY-MM-DD, is answered with a
client-error response carrying an explanatory message, and range scraping
is never invoked — the response is identical under every fetch behaviour. -/
theorem invalid_request_rejected (fetch : Fetch) (args : Args)
    (h : args.start_date = none ∨ args.end_date = none ∨ args.location = none ∨
         parseYMD (args.start_date.getD "") = none ∨
         parseYMD (args.end_date.getD "") = none) :
    (get_panchang fetch args).isClientError = true ∧
    ∀ fetch2 : Fetch, get_panchang fetch args = get_panchang fetch2 args := by
  have key : ∃ msg, ∀ f2 : Fetch, get_panchang f2 args = Response.clientError msg := by
    by_cases ht : (truthy args.start_date && truthy args.end_date && truthy args.location) = true
    · have hs : parseYMD (args.start_date.getD "") = none ∨
          parseYMD (args.end_date.getD "") = none := by
        rcases h with h | h | h | h | h
        · rw [h] at ht; simp [truthy] at ht
        · rw [h] at ht; simp [truthy] at ht
        · rw [h] at ht; simp [truthy] at ht
        · exact Or.inl h
        · exact Or.inr h
      refine ⟨invalidDateMsg, fun f2 => ?_⟩
      unfold get_panchang
      rw [if_neg (by simp [ht])]
      rcases hs with hs | hs
      · simp only [hs]
      · cases hps : parseYMD (args.start_date.getD "") <;> simp only [hps, hs]
    · refine ⟨missingParamsMsg, fun f2 => ?_⟩
      unfold get_panchang
      rw [if_pos (by simp [ht])]
  obtain ⟨msg, hmsg⟩ := key
  refine ⟨?_, fun f2 => (hmsg fetch).trans (hmsg f2).symm⟩
  rw [hmsg fetch]
  rfl

/-- Witness for C9: a request missing `location`. -/
theorem invalid_request_rejected_witness :
    (get_panchang (fun _ => none)
        ⟨some "2024-01-01", some "2024-01-02", none⟩).isClientError = true :=
  (invalid_request_rejected (fun _ => none)
    ⟨some "2024-01-01", some "2024-01-02", none⟩
    (Or.inr (Or.inr (Or.inl rfl)))).1

/-- C10: a required parameter that is present but empty is treated exactly
like a missing one — the truthiness check fails, so the handler answers
with the missing-parameter client error before any date parsing, and no
scraping happens under any fetch behaviour. -/
theorem empty_param_treated_missing (fetch : Fetch) (args : Args)
    (h : args.start_date = some "" ∨ args.end_date = some "" ∨
         args.location = some "") :
    get_panchang fetch args = Response.clientError missingParamsMsg ∧
    ∀ fetch2 : Fetch, get_panchang fetch args = get_panchang fetch2 args := by
  have hc : (truthy args.start_date && truthy args.end_date && truthy args.location)
      = false := by
    rcases h with h | h | h <;> simp [h, truthy]
  have key : ∀ f2 : Fetch, get_panchang f2 args = Response.clientError missingParamsMsg := by
    intro f2
    unfold get_panchang
    rw [if_pos (by simp [hc])]
  exact ⟨key fetch, fun f2 => (key fetch).trans (key f2).symm⟩

/-- Witness for C10: an empty `start_date`, the other parameters present and
even well-formed. -/
theorem empty_param_treated_missing_witness :
    get_panchang (fun _ => none) ⟨some "", some "2024-01-02", some "New Delhi, India"⟩ =
      Response.clientError missingParamsMsg :=
  (empty_param_treated_missing (fun _ => none)
    ⟨some "", some "2024-01-02", some "New Delhi, India"⟩ (Or.inl rfl)).1

end Panchang
